import Mathlib

/-!
Shallow embedding of the two agent workflows in this repository:
`src/samples/RAG-sample/src/agents/quiz-generator-RAG.py` (quiz generation with a
sufficiency feedback loop and a retrieval retry loop) and
`src/samples/RAG-sample/src/agents/researcher-and-uploader.py` (research and upload).

External collaborators (the LLM, the retriever backend, the researcher agent, the
bucket store, the graph engine) are modelled as oracles: functions supplied as
parameters that produce the outcome of each external call. The repository's own
code — the pydantic schemas and validator, the retry loop, the parse/update logic,
the routing function, and the node wiring — is translated line by line.
-/

/-- `QuizItem` (quiz-generator-RAG.py lines 19-28): one question with a difficulty
and an expected answer. The pydantic `float` difficulty is modelled as a rational. -/
structure QuizItem where
  question : String
  difficulty : Rat
  answer : String
deriving DecidableEq

/-- `Quiz` (lines 29-32): an ordered list of quiz items. -/
structure Quiz where
  quiz_items : List QuizItem
deriving DecidableEq

/-- `QuizOrInsufficientInfo` (lines 33-39): the structured generation result, with an
optional quiz and an optional `additional_info` string.  The sentinel string
`"false"` in `additional_info` signals that no further information is needed. -/
structure QuizOrInsufficientInfo where
  quiz : Option Quiz
  additional_info : Option String
deriving DecidableEq

/-- The `check_quiz` pydantic validator (lines 41-45): raises a `ValueError` exactly
when `values.get("additional_info") == "false"` and the quiz value is `None`.
`values_additional_info` models the `values.get("additional_info")` lookup, where
`values` holds only the fields pydantic has already validated — those declared
before the validated field. -/
def check_quiz (v : Option Quiz) (values_additional_info : Option String) :
    Except String (Option Quiz) :=
  if values_additional_info = some "false" ∧ v = none then
    Except.error "Quiz should be None when additional_info is not false"
  else
    Except.ok v

/-- What `output_parser.parse` can see in the raw LLM text: either output that is not
syntactically parseable into the schema, or a pair of field values for
`QuizOrInsufficientInfo` that is then subjected to pydantic validation. -/
inductive ParsedFields where
  | malformed
  | fields (quiz : Option Quiz) (additional_info : Option String)
deriving DecidableEq

/-- `output_parser.parse(result.content)` (line 142): syntactic parse into the
schema followed by pydantic validation (the `check_quiz` validator).  `none` models
the exception path (output not parseable into the schema), which line 153 catches.
Pydantic validates fields in declaration order and `quiz` (line 34) is declared
before `additional_info` (line 37), so when `check_quiz` validates `quiz` the
`values` dict contains no `additional_info` yet: the lookup yields `None`, the
validator's condition `None == "false"` is never true, and validation rejects no
field combination — the validator is dead code. -/
def output_parser_parse (raw : ParsedFields) : Option QuizOrInsufficientInfo :=
  match raw with
  | ParsedFields.malformed => none
  | ParsedFields.fields q a =>
      match check_quiz q none with
      | Except.ok v => some { quiz := v, additional_info := a }
      | Except.error _ => none

/-- Conversation messages (langchain message types used by the two workflows). -/
inductive Message where
  | human (content : String)
  | system (content : String)
  | ai (content : String)
deriving DecidableEq

/-- `GraphInput` (lines 65-70): caller-supplied input of the quiz workflow. -/
structure GraphInput where
  general_category : String
  quiz_topic : String
  bucket_name : String
  index_name : String
  bucket_folder : Option String
deriving DecidableEq

/-- `GraphOutput` (lines 62-63): the workflow output, a required `Quiz`. -/
structure GraphOutput where
  quiz : Quiz
deriving DecidableEq

/-- `GraphState` (lines 72-79): the mutable per-run workflow state.  At runtime the
`additional_info` channel holds either the string `"false"` (set by `prepare_input`)
or the parsed result's `additional_info` (an optional string), so it is modelled as
`Option String`. -/
structure GraphState where
  messages : List Message
  general_category : String
  quiz_topic : String
  bucket_name : String
  bucket_folder : Option String
  index_name : String
  additional_info : Option String
  quiz : Option Quiz
deriving DecidableEq

/-- `prepare_input` (lines 81-88) composed with the engine seeding the state from the
input: the initial state carries the input fields (including `bucket_folder`, which
the engine seeds even though `prepare_input` does not copy it), an empty
conversation, no quiz, and `additional_info` set to the sentinel `"false"`. -/
def prepare_input (s : GraphInput) : GraphState :=
  { messages := []
    general_category := s.general_category
    quiz_topic := s.quiz_topic
    bucket_name := s.bucket_name
    bucket_folder := s.bucket_folder
    index_name := s.index_name
    additional_info := some "false"
    quiz := none }

/-- Python f-string formatting of an optional string, as in
`HumanMessage(f"...")` on line 93: `None` prints as the text `None`. -/
def formatOptStr : Option String → String
  | some s => s
  | none => "None"

/-- `invoke_researcher` (lines 90-109): appends a human request to the conversation
(the stored gap text when `additional_info` is not the sentinel, otherwise the
bootstrap request about the general category), suspends on the sub-task, and then
appends the sub-task's last message followed by a user request to create the quiz.
`agent_last` is the oracle for `agent_response["messages"][-1]`. -/
def invoke_researcher (st : GraphState) (agent_last : Message) : GraphState :=
  let request : Message :=
    if st.additional_info ≠ some "false" then
      Message.human (formatOptStr st.additional_info)
    else
      Message.human ("Fetch data about " ++ st.general_category)
  { st with
    messages := st.messages ++
      [request, agent_last, Message.human ("create a quiz about " ++ st.quiz_topic)] }

/-- Outcome of one `ContextGroundingRetriever(...).invoke(...)` call (line 119-123):
the successful document list, the `IngestionInProgressException`, or any other
exception. -/
inductive RetrievalOutcome where
  | success (ctx : List String)
  | ingestionInProgress
  | failure (e : String)
deriving DecidableEq

/-- How the `while` loop of `create_quiz` (lines 117-129) exits: either normally
(with the final value of `context_data` and the number of 5-second waits performed)
or by an uncaught exception propagating out of the loop. -/
inductive LoopExit where
  | normal (context_data : Option (List String)) (waits : Nat)
  | raised (e : String) (waits : Nat)
deriving DecidableEq

/-- The `while no_of_retries != 0` loop body (lines 117-129): on success assign
`context_data` and break; on `IngestionInProgressException` decrement the counter,
sleep 5 seconds (counted in `waits`) and continue; any other exception propagates.
`attempt i` is the oracle for the `i`-th retriever invocation. -/
def retrieveLoopGo (attempt : Nat → RetrievalOutcome) :
    Nat → Nat → Nat → LoopExit
  | 0, _, waits => LoopExit.normal none waits
  | fuel + 1, idx, waits =>
      match attempt idx with
      | RetrievalOutcome.success ctx => LoopExit.normal (some ctx) waits
      | RetrievalOutcome.ingestionInProgress =>
          retrieveLoopGo attempt fuel (idx + 1) (waits + 1)
      | RetrievalOutcome.failure e => LoopExit.raised e waits

/-- Result of the retrieval phase of `create_quiz` (lines 113-131). -/
inductive RetrievalResult where
  | ok (ctx : List String) (waits : Nat)
  | tooLong (waits : Nat)
  | propagated (e : String) (waits : Nat)
deriving DecidableEq

/-- The retrieval phase of `create_quiz` (lines 113-131): run the retry loop with
`no_of_retries = 5`, then the check `if not context_data: raise` — note that Python
truthiness makes an empty document list fail this check exactly like `None`, raising
`Exception("Ingestion is taking too long!")`. -/
def create_quiz_retrieval (attempt : Nat → RetrievalOutcome) : RetrievalResult :=
  match retrieveLoopGo attempt 5 0 0 with
  | LoopExit.raised e waits => RetrievalResult.propagated e waits
  | LoopExit.normal context_data waits =>
      match context_data with
      | none => RetrievalResult.tooLong waits
      | some ctx =>
          if ctx = [] then RetrievalResult.tooLong waits
          else RetrievalResult.ok ctx waits

/-- The `Command` value returned by the generation phase of `create_quiz`:
either the state update of lines 147-152 or `Command(goto=END)` of line 155. -/
inductive QuizCommand where
  | update (quiz : Option Quiz) (additional_info : Option String)
  | gotoEnd
deriving DecidableEq

/-- The generation phase of `create_quiz` (lines 141-155): parse the LLM content;
on success update `quiz` to the parsed quiz when `additional_info == "false"` and to
`None` otherwise, and update `additional_info` to the parsed value; on any parse or
validation exception return `Command(goto=END)`. -/
def create_quiz_decide (raw : ParsedFields) : QuizCommand :=
  match output_parser_parse raw with
  | some llm_response =>
      QuizCommand.update
        (if llm_response.additional_info = some "false" then llm_response.quiz
         else none)
        llm_response.additional_info
  | none => QuizCommand.gotoEnd

/-- `check_quiz_creation` (lines 157-162): route to `"invoke_researcher"` when
`additional_info` differs from the sentinel `"false"`, else to `"return_quiz"`. -/
def check_quiz_creation (st : GraphState) : String :=
  if st.additional_info ≠ some "false" then "invoke_researcher" else "return_quiz"

/-- `return_quiz` (lines 164-167): builds `GraphOutput(quiz=state["quiz"])`.  When
the state's quiz is `None`, pydantic rejects the required `quiz` field; the error
branch models that `ValidationError`. -/
def return_quiz (st : GraphState) : Except String GraphOutput :=
  match st.quiz with
  | some q => Except.ok { quiz := q }
  | none => Except.error "GraphOutput validation error"

/-- Oracles for the external collaborators of the quiz workflow, indexed by the
research-generation cycle number: `ack k` is the last message of the `k`-th
researcher sub-task response, `retrieval k i` is the outcome of the `i`-th
retriever invocation during the `k`-th `create_quiz` call, and `llm k` is the
parseable content of the `k`-th generation call. -/
structure Env where
  ack : Nat → Message
  retrieval : Nat → Nat → RetrievalOutcome
  llm : Nat → ParsedFields

/-- How a run of the quiz workflow ends.  `returned` is the normal exit through the
`return_quiz` node; `earlyEnd` is the `Command(goto=END)` exit on parse failure,
carrying whatever the `quiz` state channel held (the engine's END output bypasses
`return_quiz`); `raised` is an uncaught exception; `outOfFuel` reports the state
reached after exhausting the given number of research-generation cycles.  Each
constructor records how many researcher sub-task invocations happened. -/
inductive ExecResult where
  | returned (out : GraphOutput) (researcherCalls : Nat)
  | earlyEnd (quizChannel : Option Quiz) (researcherCalls : Nat)
  | raised (e : String) (researcherCalls : Nat)
  | outOfFuel (st : GraphState) (researcherCalls : Nat)
deriving DecidableEq

/-- Number of researcher sub-task invocations recorded in an execution result. -/
def ExecResult.researcherCalls : ExecResult → Nat
  | ExecResult.returned _ k => k
  | ExecResult.earlyEnd _ k => k
  | ExecResult.raised _ k => k
  | ExecResult.outOfFuel _ k => k

/-- Whether an execution result is terminal (normal return, early END, or an
exception) as opposed to a run still in progress when the examined cycle budget
ran out. -/
def ExecResult.terminated : ExecResult → Bool
  | ExecResult.outOfFuel _ _ => false
  | _ => true

/-- Execution of the wired graph (lines 176-180) from the `invoke_researcher` node:
each cycle runs `invoke_researcher`, then `create_quiz` (retrieval phase then
generation phase), then follows the conditional edge chosen by
`check_quiz_creation`, looping back to `invoke_researcher` or finishing at
`return_quiz`.  `fuel` bounds the number of cycles examined; `k` counts researcher
invocations so far. -/
def runFrom (env : Env) : Nat → GraphState → Nat → ExecResult
  | 0, st, k => ExecResult.outOfFuel st k
  | fuel + 1, st, k =>
      let st1 := invoke_researcher st (env.ack k)
      match create_quiz_retrieval (env.retrieval k) with
      | RetrievalResult.propagated e _ => ExecResult.raised e (k + 1)
      | RetrievalResult.tooLong _ =>
          ExecResult.raised "Ingestion is taking too long!" (k + 1)
      | RetrievalResult.ok _ _ =>
          match create_quiz_decide (env.llm k) with
          | QuizCommand.gotoEnd => ExecResult.earlyEnd st1.quiz (k + 1)
          | QuizCommand.update q a =>
              let st2 : GraphState := { st1 with quiz := q, additional_info := a }
              if check_quiz_creation st2 = "invoke_researcher" then
                runFrom env fuel st2 (k + 1)
              else
                match return_quiz st2 with
                | Except.ok out => ExecResult.returned out (k + 1)
                | Except.error e => ExecResult.raised e (k + 1)

/-- A full run of the quiz workflow: `START → prepare_input → invoke_researcher`
(lines 176-177), then the cycle structure of `runFrom`. -/
def run (env : Env) (input : GraphInput) (fuel : Nat) : ExecResult :=
  runFrom env fuel (prepare_input input) 0

namespace Researcher

/-- `GraphInput` of researcher-and-uploader.py (lines 21-23): a conversation plus
bucket coordinates. -/
structure GraphInput where
  messages : List Message
  bucket_name : String
  bucket_folder : Option String
deriving DecidableEq

/-- `GraphState` of researcher-and-uploader.py (lines 25-28). -/
structure GraphState where
  messages : List Message
  web_results : String
  bucket_name : String
  bucket_folder : Option String
deriving DecidableEq

/-- `prepare_input` (researcher-and-uploader.py lines 30-36): copies the input and
initialises `web_results` to the empty string. -/
def prepare_input (s : GraphInput) : GraphState :=
  { messages := s.messages
    web_results := ""
    bucket_name := s.bucket_name
    bucket_folder := s.bucket_folder }

/-- `research_node` (lines 38-44): runs the react agent and stores the content of
its last message as `web_results`.  `findings` is the oracle for
`result["messages"][-1].content`. -/
def research_node (st : GraphState) (findings : String) : GraphState :=
  { st with web_results := findings }

/-- The argument record of the `uipath.buckets.upload_from_memory` call
(lines 49-53). -/
structure UploadCall where
  bucket_name : String
  blob_file_path : String
  content_type : String
  content : String
deriving DecidableEq

/-- `upload_to_bucket` (lines 46-54): uploads `web_results` to the blob
`f"{current_timestamp}.txt"` with content type `application/txt`, then returns a
conversation holding the single fixed acknowledgment message. -/
def upload_to_bucket (st : GraphState) (current_timestamp : Nat) :
    UploadCall × List Message :=
  ({ bucket_name := st.bucket_name
     blob_file_path := toString current_timestamp ++ ".txt"
     content_type := "application/txt"
     content := st.web_results },
   [Message.ai "Relevant information uploaded to bucket."])

/-- The wired researcher graph (lines 57-66):
`START → prepare_input → researcher → upload_to_bucket → END`, with the agent's
findings and the upload timestamp supplied as oracles.  Produces the upload call
made and the message list returned by the terminal node. -/
def runResearcher (input : GraphInput) (findings : String) (current_timestamp : Nat) :
    UploadCall × List Message :=
  upload_to_bucket (research_node (prepare_input input) findings) current_timestamp

end Researcher

/-- If the first `n` retriever invocations raise `IngestionInProgressException` and
the next one succeeds, the retry loop exits normally with the successful context
after `n` additional waits, provided the fuel covers attempt `n`. -/
theorem retrieveLoopGo_success (attempt : Nat → RetrievalOutcome) (ctx : List String) :
    ∀ (n fuel idx waits : Nat), n < fuel →
      (∀ i, i < n → attempt (idx + i) = RetrievalOutcome.ingestionInProgress) →
      attempt (idx + n) = RetrievalOutcome.success ctx →
      retrieveLoopGo attempt fuel idx waits = LoopExit.normal (some ctx) (waits + n) := by
  intro n
  induction n with
  | zero =>
      intro fuel idx waits hfuel _ hsucc
      match fuel, hfuel with
      | fuel + 1, _ =>
        simp only [retrieveLoopGo]
        rw [show idx + 0 = idx from rfl] at hsucc
        rw [hsucc]
        rfl
  | succ n ih =>
      intro fuel idx waits hfuel hing hsucc
      match fuel, hfuel with
      | fuel + 1, hfuel =>
        simp only [retrieveLoopGo]
        have h0 : attempt idx = RetrievalOutcome.ingestionInProgress := by
          have := hing 0 (Nat.succ_pos n)
          simpa using this
        rw [h0]
        have hrec := ih fuel (idx + 1) (waits + 1) (Nat.lt_of_succ_lt_succ hfuel)
          (fun i hi => by
            have := hing (i + 1) (Nat.succ_lt_succ hi)
            simpa [Nat.add_assoc, Nat.add_comm 1 i] using this)
          (by simpa [Nat.add_assoc, Nat.add_comm 1 n] using hsucc)
        rw [hrec]
        simp [Nat.add_assoc, Nat.add_comm 1 n]

/-- If every attempt the fuel allows raises `IngestionInProgressException`, the loop
exits normally with `context_data` still `None`, having waited once per attempt. -/
theorem retrieveLoopGo_exhaust (attempt : Nat → RetrievalOutcome) :
    ∀ (fuel idx waits : Nat),
      (∀ i, i < fuel → attempt (idx + i) = RetrievalOutcome.ingestionInProgress) →
      retrieveLoopGo attempt fuel idx waits = LoopExit.normal none (waits + fuel) := by
  intro fuel
  induction fuel with
  | zero => intro idx waits _; simp [retrieveLoopGo]
  | succ fuel ih =>
      intro idx waits hing
      simp only [retrieveLoopGo]
      have h0 : attempt idx = RetrievalOutcome.ingestionInProgress := by
        have := hing 0 (Nat.succ_pos fuel)
        simpa using this
      rw [h0]
      have hrec := ih (idx + 1) (waits + 1)
        (fun i hi => by
          have := hing (i + 1) (Nat.succ_lt_succ hi)
          simpa [Nat.add_assoc, Nat.add_comm 1 i] using this)
      rw [hrec]
      simp [Nat.add_assoc, Nat.add_comm 1 fuel]

/-- If the first `n` retriever invocations raise `IngestionInProgressException` and
the next one raises any other exception, the loop re-raises that exception with no
additional wait. -/
theorem retrieveLoopGo_failure (attempt : Nat → RetrievalOutcome) (e : String) :
    ∀ (n fuel idx waits : Nat), n < fuel →
      (∀ i, i < n → attempt (idx + i) = RetrievalOutcome.ingestionInProgress) →
      attempt (idx + n) = RetrievalOutcome.failure e →
      retrieveLoopGo attempt fuel idx waits = LoopExit.raised e (waits + n) := by
  intro n
  induction n with
  | zero =>
      intro fuel idx waits hfuel _ hfail
      match fuel, hfuel with
      | fuel + 1, _ =>
        simp only [retrieveLoopGo]
        rw [show idx + 0 = idx from rfl] at hfail
        rw [hfail]
        rfl
  | succ n ih =>
      intro fuel idx waits hfuel hing hfail
      match fuel, hfuel with
      | fuel + 1, hfuel =>
        simp only [retrieveLoopGo]
        have h0 : attempt idx = RetrievalOutcome.ingestionInProgress := by
          have := hing 0 (Nat.succ_pos n)
          simpa using this
        rw [h0]
        have hrec := ih fuel (idx + 1) (waits + 1) (Nat.lt_of_succ_lt_succ hfuel)
          (fun i hi => by
            have := hing (i + 1) (Nat.succ_lt_succ hi)
            simpa [Nat.add_assoc, Nat.add_comm 1 i] using this)
          (by simpa [Nat.add_assoc, Nat.add_comm 1 n] using hfail)
        rw [hrec]
        simp [Nat.add_assoc, Nat.add_comm 1 n]

/-- C3 counterexample: the claim asserts that whenever retrieval raises the
ingestion-in-progress signal `N` times and then succeeds (here `N = 0`), the loop
returns the successful context.  But when the successful retrieval yields an empty
document list, the `if not context_data` check treats it like `None` (Python
truthiness) and raises the fatal error instead of returning the context. -/
theorem C3_counterexample_empty_success :
    create_quiz_retrieval (fun _ => RetrievalOutcome.success []) =
      RetrievalResult.tooLong 0 ∧
    create_quiz_retrieval (fun _ => RetrievalOutcome.success []) ≠
      RetrievalResult.ok [] 0 :=
  ⟨rfl, fun h => nomatch h⟩

/-- C3 (amended): if retrieval raises the ingestion-in-progress signal exactly `N`
times and then succeeds with a non-empty context, for `N ≤ 4` the loop returns that
context after exactly `N` fixed 5-second waits; if the signal is raised on all 5
attempts, the loop stops after 5 attempts and raises the fatal
"Ingestion is taking too long!" error. -/
theorem C3_amended_retry_loop (attempt : Nat → RetrievalOutcome) :
    (∀ (n : Nat) (ctx : List String), n ≤ 4 →
      (∀ i, i < n → attempt i = RetrievalOutcome.ingestionInProgress) →
      attempt n = RetrievalOutcome.success ctx → ctx ≠ [] →
      create_quiz_retrieval attempt = RetrievalResult.ok ctx n) ∧
    ((∀ i, i < 5 → attempt i = RetrievalOutcome.ingestionInProgress) →
      create_quiz_retrieval attempt = RetrievalResult.tooLong 5) := by
  constructor
  · intro n ctx hn hing hsucc hne
    have hloop := retrieveLoopGo_success attempt ctx n 5 0 0
      (by omega) (fun i hi => by simpa using hing i hi) (by simpa using hsucc)
    simp only [create_quiz_retrieval, hloop]
    simp [hne]
  · intro hing
    have hloop := retrieveLoopGo_exhaust attempt 5 0 0
      (fun i hi => by simpa using hing i hi)
    simp only [create_quiz_retrieval, hloop]

/-- Witness for the amended C3: two ingestion signals then a non-empty success give
the context after 2 waits, and five consecutive signals give the fatal error. -/
theorem C3_amended_retry_loop_witness :
    create_quiz_retrieval
        (fun i => if i < 2 then RetrievalOutcome.ingestionInProgress
                  else RetrievalOutcome.success ["doc"]) =
      RetrievalResult.ok ["doc"] 2 ∧
    create_quiz_retrieval (fun _ => RetrievalOutcome.ingestionInProgress) =
      RetrievalResult.tooLong 5 :=
  ⟨(C3_amended_retry_loop _).1 2 ["doc"] (by omega) (by decide) (by rfl) (by decide),
   (C3_amended_retry_loop _).2 (fun _ _ => rfl)⟩

/-- C5: during retrieval, any exception other than `IngestionInProgressException`
propagates to the caller immediately and unchanged: it consumes no retry attempt,
adds no 5-second wait (the recorded waits equal the number of preceding ingestion
signals only), and is not converted into the "Ingestion is taking too long!"
error. -/
theorem C5_other_failures_propagate (attempt : Nat → RetrievalOutcome) (j : Nat)
    (e : String) (hj : j < 5)
    (hing : ∀ i, i < j → attempt i = RetrievalOutcome.ingestionInProgress)
    (hfail : attempt j = RetrievalOutcome.failure e) :
    create_quiz_retrieval attempt = RetrievalResult.propagated e j := by
  have hloop := retrieveLoopGo_failure attempt e j 5 0 0 hj
    (fun i hi => by simpa using hing i hi) (by simpa using hfail)
  simp only [create_quiz_retrieval, hloop, Nat.zero_add]

/-- Witness for C5: one ingestion signal followed by an unrelated failure
propagates that failure with a single preceding wait. -/
theorem C5_other_failures_propagate_witness :
    create_quiz_retrieval
        (fun i => if i = 0 then RetrievalOutcome.ingestionInProgress
                  else RetrievalOutcome.failure "boom") =
      RetrievalResult.propagated "boom" 1 :=
  C5_other_failures_propagate _ 1 "boom" (by omega) (by decide) (by rfl)

/-- C1: every parsed generation result with `additional_info` equal to the sentinel
`"false"` and a quiz present passes validation unchanged, the `create_quiz` update
stores exactly that quiz, `check_quiz_creation` routes to the terminal
`return_quiz` node, and `return_quiz` emits the very same quiz (same items, same
order, no mutation). -/
theorem C1_sufficient_result_returns_quiz_unchanged (q : Quiz) (st : GraphState) :
    output_parser_parse (ParsedFields.fields (some q) (some "false")) =
      some { quiz := some q, additional_info := some "false" } ∧
    create_quiz_decide (ParsedFields.fields (some q) (some "false")) =
      QuizCommand.update (some q) (some "false") ∧
    check_quiz_creation
        { st with quiz := some q, additional_info := some "false" } = "return_quiz" ∧
    return_quiz { st with quiz := some q, additional_info := some "false" } =
      Except.ok { quiz := q } := by
  refine ⟨?_, ?_, ?_, rfl⟩
  · simp [output_parser_parse, check_quiz]
  · simp [create_quiz_decide, output_parser_parse, check_quiz]
  · simp [check_quiz_creation]

/-- C2: every parsed generation result whose `additional_info` differs from the
sentinel `"false"` makes the `create_quiz` update discard any quiz (stores `None`),
makes `check_quiz_creation` route back to `invoke_researcher`, and
`invoke_researcher` appends the formatted gap text to the conversation as a new
human request — verbatim whenever the gap is an actual string. -/
theorem C2_insufficient_result_routes_to_research (ai : Option String)
    (q : Option Quiz) (st : GraphState) (ack : Message) (h : ai ≠ some "false") :
    create_quiz_decide (ParsedFields.fields q ai) = QuizCommand.update none ai ∧
    check_quiz_creation { st with quiz := none, additional_info := ai } =
      "invoke_researcher" ∧
    (invoke_researcher { st with quiz := none, additional_info := ai } ack).messages =
      st.messages ++
        [Message.human (formatOptStr ai), ack,
         Message.human ("create a quiz about " ++ st.quiz_topic)] ∧
    ∀ gap, ai = some gap → formatOptStr ai = gap := by
  refine ⟨?_, ?_, ?_, ?_⟩
  · simp [create_quiz_decide, output_parser_parse, check_quiz, h]
  · simp [check_quiz_creation, h]
  · simp [invoke_researcher, h]
  · intro gap hgap
    subst hgap
    rfl

/-- Witness for C2: at the concrete gap `"need dates"` with a populated quiz field,
the update discards the quiz and routing goes back to research. -/
theorem C2_insufficient_result_routes_to_research_witness :
    create_quiz_decide
        (ParsedFields.fields (some { quiz_items := [] }) (some "need dates")) =
      QuizCommand.update none (some "need dates") ∧
    check_quiz_creation
        { messages := [], general_category := "space", quiz_topic := "black holes",
          bucket_name := "b", bucket_folder := none, index_name := "i",
          additional_info := some "need dates", quiz := none } =
      "invoke_researcher" :=
  ⟨(C2_insufficient_result_routes_to_research (some "need dates")
      (some { quiz_items := [] })
      { messages := [], general_category := "space", quiz_topic := "black holes",
        bucket_name := "b", bucket_folder := none, index_name := "i",
        additional_info := some "need dates", quiz := none }
      (Message.ai "ok") (by decide)).1,
   (C2_insufficient_result_routes_to_research (some "need dates")
      (some { quiz_items := [] })
      { messages := [], general_category := "space", quiz_topic := "black holes",
        bucket_name := "b", bucket_folder := none, index_name := "i",
        additional_info := some "need dates", quiz := none }
      (Message.ai "ok") (by decide)).2.1⟩

/-- C6 counterexample: a value with BOTH variants populated — a quiz together with
the non-sentinel marker `"need the dates"` — passes the `check_quiz`
construction-time validation, so validated values do not have exactly one variant
populated. -/
theorem C6_counterexample_both_variants_accepted :
    output_parser_parse
        (ParsedFields.fields (some { quiz_items := [] }) (some "need the dates")) =
      some { quiz := some { quiz_items := [] },
             additional_info := some "need the dates" } ∧
    (some "need the dates" : Option String) ≠ some "false" := by
  exact ⟨rfl, by decide⟩

/-- C6 (amended): construction-time validation rejects nothing — the `check_quiz`
validator is dead code, because it validates `quiz`, which is declared before
`additional_info`, so `values.get("additional_info")` is always `None` and the
raising condition never holds.  Every combination of quiz and missing-info marker
is accepted unchanged, including a quiz present alongside a non-sentinel marker
and the sentinel with no quiz; mutual exclusion of the two variants is not
enforced at construction (any quiz accompanying a non-sentinel marker is only
discarded later by the `create_quiz` update). -/
theorem C6_amended_validation_never_rejects (q : Option Quiz)
    (ai : Option String) :
    output_parser_parse (ParsedFields.fields q ai) =
      some { quiz := q, additional_info := ai } := rfl

/-- C10 counterexample: a parse of `quiz=None, additional_info="false"` is NOT
rejected — the dead `check_quiz` validator accepts it — so the update stores an
empty quiz with the sentinel set, falsifying the claimed equivalence (quiz empty
while the gap-indicator equals `"false"`); `check_quiz_creation` then routes to the
terminal `return_quiz` node, where `GraphOutput(quiz=None)` raises the validation
error instead of the output carrying a present quiz. -/
theorem C10_counterexample_dead_validator :
    output_parser_parse (ParsedFields.fields none (some "false")) =
      some { quiz := none, additional_info := some "false" } ∧
    create_quiz_decide (ParsedFields.fields none (some "false")) =
      QuizCommand.update none (some "false") ∧
    check_quiz_creation
        { messages := [], general_category := "space", quiz_topic := "black holes",
          bucket_name := "b", bucket_folder := none, index_name := "i",
          additional_info := some "false", quiz := none } = "return_quiz" ∧
    return_quiz
        { messages := [], general_category := "space", quiz_topic := "black holes",
          bucket_name := "b", bucket_folder := none, index_name := "i",
          additional_info := some "false", quiz := none } =
      Except.error "GraphOutput validation error" :=
  ⟨rfl, rfl, rfl, rfl⟩

/-- C10 (amended): after every successfully parsed generation step the stored quiz
is the parsed quiz when the gap-indicator equals the sentinel `"false"` and empty
otherwise — so a non-empty stored quiz implies the sentinel, and any other
gap-indicator clears the stored quiz.  The converse direction and the
terminal-step guarantee do not hold (see the counterexample): the dead validator
accepts a sentinel result without a quiz, and the terminal `return_quiz` step then
raises the `GraphOutput` validation error on an empty quiz channel, while with a
present quiz it returns exactly that quiz. -/
theorem C10_amended_quiz_only_if_sentinel (q : Option Quiz) (ai : Option String)
    (st : GraphState) :
    create_quiz_decide (ParsedFields.fields q ai) =
      QuizCommand.update (if ai = some "false" then q else none) ai ∧
    return_quiz { st with quiz := none, additional_info := ai } =
      Except.error "GraphOutput validation error" ∧
    ∀ qz : Quiz, return_quiz { st with quiz := some qz, additional_info := ai } =
      Except.ok { quiz := qz } :=
  ⟨rfl, rfl, fun _ => rfl⟩

/-- C4: when the generation call's structured output fails to parse at any cycle
`k` (entered, as always, with an empty quiz channel), the workflow terminates
immediately through `Command(goto=END)`: the output carries no quiz, no further
research-generation cycle starts (the researcher count stays at `k + 1`), and no
exception is raised to the caller — the terminal `return_quiz` node is bypassed. -/
theorem C4_parse_failure_silent_end (env : Env) (st : GraphState) (k fuel : Nat)
    (ctx : List String) (w : Nat) (hq : st.quiz = none)
    (hret : create_quiz_retrieval (env.retrieval k) = RetrievalResult.ok ctx w)
    (hllm : env.llm k = ParsedFields.malformed) :
    runFrom env (fuel + 1) st k = ExecResult.earlyEnd none (k + 1) := by
  simp only [runFrom, hret, hllm, create_quiz_decide, output_parser_parse,
    invoke_researcher]
  exact congrArg (fun z => ExecResult.earlyEnd z (k + 1)) hq

/-- Witness for C4: a malformed generation result after a successful retrieval ends
the run early with no quiz and a single researcher call. -/
theorem C4_parse_failure_silent_end_witness :
    run { ack := fun _ => Message.ai "ok",
          retrieval := fun _ _ => RetrievalOutcome.success ["d"],
          llm := fun _ => ParsedFields.malformed }
        { general_category := "space", quiz_topic := "black holes",
          bucket_name := "b", index_name := "i", bucket_folder := none } 1 =
      ExecResult.earlyEnd none 1 :=
  C4_parse_failure_silent_end
    { ack := fun _ => Message.ai "ok",
      retrieval := fun _ _ => RetrievalOutcome.success ["d"],
      llm := fun _ => ParsedFields.malformed }
    (prepare_input
      { general_category := "space", quiz_topic := "black holes",
        bucket_name := "b", index_name := "i", bucket_folder := none })
    0 0 ["d"] 0 rfl rfl rfl

/-- C7: the initial state carries the no-gap sentinel `"false"`, so the mandatory
bootstrap research request about the general category is appended and the
researcher sub-task runs exactly once before the first generation attempt; when
that first generation result is sufficient, the run finishes with exactly the
generated quiz and exactly one researcher invocation in total. -/
theorem C7_bootstrap_then_single_cycle (env : Env) (input : GraphInput) (fuel : Nat)
    (q : Quiz) (ctx : List String) (w : Nat)
    (hret : create_quiz_retrieval (env.retrieval 0) = RetrievalResult.ok ctx w)
    (hllm : env.llm 0 = ParsedFields.fields (some q) (some "false")) :
    (prepare_input input).additional_info = some "false" ∧
    (invoke_researcher (prepare_input input) (env.ack 0)).messages =
      [Message.human ("Fetch data about " ++ input.general_category), env.ack 0,
       Message.human ("create a quiz about " ++ input.quiz_topic)] ∧
    run env input (fuel + 1) = ExecResult.returned { quiz := q } 1 := by
  refine ⟨rfl, ?_, ?_⟩
  · simp [invoke_researcher, prepare_input]
  · simp only [run, runFrom, hret, hllm]
    simp [create_quiz_decide, output_parser_parse, check_quiz, check_quiz_creation,
      return_quiz, invoke_researcher, prepare_input]

/-- Witness for C7: the end-to-end input of the spec with a 3-item sufficient quiz
on the first generation yields exactly that quiz with one researcher call. -/
theorem C7_bootstrap_then_single_cycle_witness :
    run { ack := fun _ => Message.ai "ok",
          retrieval := fun _ _ => RetrievalOutcome.success ["d"],
          llm := fun _ => ParsedFields.fields
            (some { quiz_items :=
              [{ question := "q1", difficulty := 0, answer := "a1" },
               { question := "q2", difficulty := 1, answer := "a2" },
               { question := "q3", difficulty := 0, answer := "a3" }] })
            (some "false") }
        { general_category := "space", quiz_topic := "black holes",
          bucket_name := "b", index_name := "i", bucket_folder := none } 1 =
      ExecResult.returned
        { quiz := { quiz_items :=
            [{ question := "q1", difficulty := 0, answer := "a1" },
             { question := "q2", difficulty := 1, answer := "a2" },
             { question := "q3", difficulty := 0, answer := "a3" }] } } 1 ∧
    ({ quiz_items :=
        [{ question := "q1", difficulty := 0, answer := "a1" },
         { question := "q2", difficulty := 1, answer := "a2" },
         { question := "q3", difficulty := 0, answer := "a3" }] } : Quiz
      ).quiz_items.length = 3 :=
  ⟨(C7_bootstrap_then_single_cycle
      { ack := fun _ => Message.ai "ok",
        retrieval := fun _ _ => RetrievalOutcome.success ["d"],
        llm := fun _ => ParsedFields.fields
          (some { quiz_items :=
            [{ question := "q1", difficulty := 0, answer := "a1" },
             { question := "q2", difficulty := 1, answer := "a2" },
             { question := "q3", difficulty := 0, answer := "a3" }] })
          (some "false") }
      { general_category := "space", quiz_topic := "black holes",
        bucket_name := "b", index_name := "i", bucket_folder := none }
      0
      { quiz_items :=
        [{ question := "q1", difficulty := 0, answer := "a1" },
         { question := "q2", difficulty := 1, answer := "a2" },
         { question := "q3", difficulty := 0, answer := "a3" }] }
      ["d"] 0 rfl rfl).2.2, rfl⟩

/-- If every cycle up to `n` retrieves successfully and parses to an insufficient
result (a non-sentinel gap), the run is still cycling after `n` research-generation
rounds, having invoked the researcher once per round. -/
theorem runFrom_insufficient_cycles (env : Env) :
    ∀ (n k : Nat) (st : GraphState),
      (∀ j, j < n → ∃ ctx w, create_quiz_retrieval (env.retrieval (k + j)) =
        RetrievalResult.ok ctx w) →
      (∀ j, j < n → ∃ q gap, env.llm (k + j) = ParsedFields.fields q (some gap) ∧
        gap ≠ "false") →
      ∃ st2, runFrom env n st k = ExecResult.outOfFuel st2 (k + n) := by
  intro n
  induction n with
  | zero => intro k st _ _; exact ⟨st, rfl⟩
  | succ n ih =>
      intro k st hret hllm
      obtain ⟨ctx, w, hr⟩ := hret 0 (Nat.succ_pos n)
      obtain ⟨q, gap, hl, hg⟩ := hllm 0 (Nat.succ_pos n)
      rw [show k + 0 = k from rfl] at hr hl
      obtain ⟨st2, h2⟩ := ih (k + 1)
        { (invoke_researcher st (env.ack k)) with
            quiz := none,
            additional_info := some gap }
        (fun j hj => by
          have := hret (j + 1) (Nat.succ_lt_succ hj)
          simpa [Nat.add_assoc, Nat.add_comm 1 j] using this)
        (fun j hj => by
          have := hllm (j + 1) (Nat.succ_lt_succ hj)
          simpa [Nat.add_assoc, Nat.add_comm 1 j] using this)
      refine ⟨st2, ?_⟩
      have hdec : create_quiz_decide (ParsedFields.fields q (some gap)) =
          QuizCommand.update none (some gap) := by
        simp [create_quiz_decide, output_parser_parse, check_quiz, hg]
      have hroute : check_quiz_creation
          { (invoke_researcher st (env.ack k)) with
              quiz := none,
              additional_info := some gap } = "invoke_researcher" := by
        simp [check_quiz_creation, hg]
      simp only [runFrom, hr, hl, hdec]
      rw [if_pos hroute, h2]
      congr 1
      omega

/-- C9: the sufficiency feedback loop has no iteration cap — for every `n`, a run
whose first `n` generation results all carry a non-sentinel gap is still not
terminated after `n` research-retry cycles, the researcher having been invoked once
per cycle, with no failure and no change in behaviour. -/
theorem C9_no_iteration_cap (env : Env) (input : GraphInput) (n : Nat)
    (hret : ∀ j, j < n → ∃ ctx w, create_quiz_retrieval (env.retrieval j) =
      RetrievalResult.ok ctx w)
    (hllm : ∀ j, j < n → ∃ q gap, env.llm j = ParsedFields.fields q (some gap) ∧
      gap ≠ "false") :
    ExecResult.terminated (run env input n) = false ∧
    ExecResult.researcherCalls (run env input n) = n := by
  obtain ⟨st2, h⟩ := runFrom_insufficient_cycles env n 0 (prepare_input input)
    (fun j hj => by simpa using hret j hj)
    (fun j hj => by simpa using hllm j hj)
  rw [Nat.zero_add] at h
  simp only [run]
  rw [h]
  exact ⟨rfl, rfl⟩

/-- Witness for C9: three consecutive insufficient generations leave the run still
cycling after three researcher invocations. -/
theorem C9_no_iteration_cap_witness :
    ExecResult.terminated (run
      { ack := fun _ => Message.ai "ok",
        retrieval := fun _ _ => RetrievalOutcome.success ["d"],
        llm := fun _ => ParsedFields.fields none (some "more") }
      { general_category := "space", quiz_topic := "black holes",
        bucket_name := "b", index_name := "i", bucket_folder := none } 3) = false ∧
    ExecResult.researcherCalls (run
      { ack := fun _ => Message.ai "ok",
        retrieval := fun _ _ => RetrievalOutcome.success ["d"],
        llm := fun _ => ParsedFields.fields none (some "more") }
      { general_category := "space", quiz_topic := "black holes",
        bucket_name := "b", index_name := "i", bucket_folder := none } 3) = 3 :=
  C9_no_iteration_cap _ _ 3 (fun _ _ => ⟨["d"], 0, rfl⟩)
    (fun _ _ => ⟨none, "more", rfl, by decide⟩)

/-- C8: for every findings text `F` and upload time `T`, the storage write receives
blob path `{T}.txt`, content type `application/txt` and body exactly `F`, and the
researcher workflow's terminal node returns a conversation consisting of exactly
one fixed acknowledgment message — independent of `F`, so the findings text is not
handed back to the caller. -/
theorem C8_upload_exact_and_single_ack (input : Researcher.GraphInput) (F : String)
    (T : Nat) :
    (Researcher.runResearcher input F T).1 =
      { bucket_name := input.bucket_name,
        blob_file_path := toString T ++ ".txt",
        content_type := "application/txt",
        content := F } ∧
    (Researcher.runResearcher input F T).2 =
      [Message.ai "Relevant information uploaded to bucket."] ∧
    (Researcher.runResearcher input F T).2.length = 1 :=
  ⟨rfl, rfl, rfl⟩
